import Mathlib

/-!
Shallow embedding of `pyrobud/command.py` (the command-registration and
invocation-context layer of the pyrobud bot framework) and proofs of the
specification claims about it.

Modelling conventions:
* Python strings are Lean `String`; the slice `s[n:]` (for `0 ≤ n`) is
  `pySlice s n`, dropping the first `n` characters.
* A Telethon message is modelled by its two text renderings used here:
  `text` (formatted, markup preserved) and `raw_text` (plain).
* A Python function object carrying dynamic attributes is `PyFunc β`:
  an opaque call behavior `behavior : β`, a `callable` flag, and a dynamic
  attribute map `attrs : String → Option AttrVal` (absent = `none`).
  `setattr`/`getattr` with a default are modelled directly on that map.
* Raised exceptions are modelled with `Except PyErr`: indexing an empty
  sequence raises `PyErr.indexError`, a failed attribute lookup raises
  `PyErr.attributeError`.
* The external primitive `bot.respond(...)` is a black box: it is passed
  to `Context.respond` as an explicit function `prim : RespondArgs ε → Message`
  receiving exactly the arguments the source forwards (target message, text,
  mode, redact, response, extra kwargs of opaque type `ε`).
* Keyword-argument passing (presence vs. absence of `mode=`, `msg=`, ... at a
  call site, as observed by `dict.setdefault`) is modelled by `Kwargs`, whose
  fields are `Option`-wrapped: `none` means the caller did not supply the
  keyword, `some v` means the caller supplied value `v`.
-/

namespace Pyrobud

/-- A Telethon message, restricted to the two renderings this layer reads:
`text` is the formatted text (markup preserved), `raw_text` the plain text. -/
structure Message where
  text : String
  raw_text : String
  deriving DecidableEq, Repr

/-- Python slice `s[n:]` for a nonnegative index `n`. -/
def pySlice (s : String) (n : Nat) : String :=
  String.mk (s.data.drop n)

/-- A value stored as a dynamic attribute by the metadata tags: the tags store
strings (`desc`, `usage`), booleans (`usage` flags), and string sequences
(`alias`). -/
inductive AttrVal where
  | vStr (s : String)
  | vBool (b : Bool)
  | vStrList (l : List String)
  deriving DecidableEq, Repr

/-- Exceptions raised by the code under study. -/
inductive PyErr where
  | indexError
  | attributeError (name : String)
  deriving DecidableEq, Repr

/-- A Python function object as used by this module: an opaque call behavior
`behavior` (of arbitrary type `β`), whether the object is callable, and its
dynamic attribute map. -/
structure PyFunc (β : Type) where
  callable : Bool
  behavior : β
  attrs : String → Option AttrVal

/-- Python `setattr(f, name, v)` on a function object. -/
def setattr {β : Type} (f : PyFunc β) (name : String) (v : AttrVal) : PyFunc β :=
  { f with attrs := fun n => if n = name then some v else f.attrs n }

/-- Tag `desc(_desc)`: returns the decorator `desc_decorator`, which sets
`_cmd_description` on the function and returns the same function. -/
def desc {β : Type} (_desc : String) : PyFunc β → PyFunc β :=
  fun func => setattr func "_cmd_description" (.vStr _desc)

/-- Tag `usage(_usage, optional, reply)`: returns the decorator
`usage_decorator`, which sets `_cmd_usage`, `_cmd_usage_optional` and
`_cmd_usage_reply` on the function and returns the same function.
(The source gives `optional` and `reply` the default `False`;
defaults are applied at call sites here.) -/
def usage {β : Type} (_usage : String) (optional reply : Bool) : PyFunc β → PyFunc β :=
  fun func =>
    setattr
      (setattr (setattr func "_cmd_usage" (.vStr _usage))
        "_cmd_usage_optional" (.vBool optional))
      "_cmd_usage_reply" (.vBool reply)

/-- Tag `alias(*aliases)`: returns the decorator `alias_decorator`, which sets
`_cmd_aliases` on the function and returns the same function. -/
def «alias» {β : Type} (aliases : List String) : PyFunc β → PyFunc β :=
  fun func => setattr func "_cmd_aliases" (.vStrList aliases)

/-- The `Command` descriptor. The metadata fields hold whatever Python value
`getattr` returned: `desc`/`usage` default to `None` (hence `Option AttrVal`),
the flag and alias fields default to `False`/`[]` (hence a plain `AttrVal`). -/
structure Command (μ β : Type) where
  name : String
  desc : Option AttrVal
  usage : Option AttrVal
  usage_optional : AttrVal
  usage_reply : AttrVal
  aliases : AttrVal
  module : μ
  func : PyFunc β

/-- Body of `Command.__init__(name, mod, func)`: each metadata field is read
off `func` with `getattr` and an explicit default. -/
def Command.make {μ β : Type} (name : String) (mod : μ) (func : PyFunc β) : Command μ β :=
  { name := name
    desc := func.attrs "_cmd_description"
    usage := func.attrs "_cmd_usage"
    usage_optional := (func.attrs "_cmd_usage_optional").getD (.vBool false)
    usage_reply := (func.attrs "_cmd_usage_reply").getD (.vBool false)
    aliases := (func.attrs "_cmd_aliases").getD (.vStrList [])
    module := mod
    func := func }

/-- Command construction seen through the exception channel. The body of
`Command.__init__` contains no `raise` and no callable check, and `getattr`
with an explicit default never raises, so construction always succeeds. -/
def Command.make? {μ β : Type} (name : String) (mod : μ) (func : PyFunc β) :
    Except PyErr (Command μ β) :=
  .ok (Command.make name mod func)

/-- The invocation `Context`. The field `args` models the instance attribute
of the same name: it is absent (`none`) until `_get_args` first stores the
computed segment slice, which is how the lazy caching in the source works
(Python only calls `__getattr__` while the instance attribute is missing). -/
structure Context (β : Type) where
  bot : β
  msg : Message
  segments : List String
  cmd_len : Nat
  invoker : String
  response : Option Message
  response_mode : Option String
  input : String
  parsed_input : String
  args : Option (List String)
  deriving DecidableEq

/-- Body of `Context.__init__(bot, msg, segments, cmd_len)`. `segments[0]`
raises `IndexError` when `segments` is empty, so construction is fallible;
`input` and `parsed_input` are computed eagerly by slicing, `response` and
`response_mode` start absent, and the `args` attribute is not yet set. -/
def Context.make? {β : Type} (bot : β) (msg : Message) (segments : List String)
    (cmd_len : Nat) : Except PyErr (Context β) :=
  match segments with
  | [] => .error .indexError
  | s0 :: _ =>
    .ok
      { bot := bot
        msg := msg
        segments := segments
        cmd_len := cmd_len
        invoker := s0
        response := none
        response_mode := none
        input := pySlice msg.text cmd_len
        parsed_input := pySlice msg.raw_text cmd_len
        args := none }

/-- Body of `Context._get_args`: stores `segments[1:]` in the `args`
attribute and returns it (value first, updated object second). -/
def Context.computeArgs {β : Type} (ctx : Context β) : List String × Context β :=
  let a := ctx.segments.drop 1
  (a, { ctx with args := some a })

/-- Attribute access `ctx.args` as performed by Python: if the instance
attribute is already set it is returned directly (no `__getattr__` call,
no recomputation); otherwise `__getattr__` dispatches to `_get_args`. -/
def Context.accessArgs {β : Type} (ctx : Context β) : List String × Context β :=
  match ctx.args with
  | some a => (a, ctx)
  | none => ctx.computeArgs

/-- The dynamically-typed result of a `Context` attribute access. -/
inductive PyVal (β : Type) where
  | pyBot (b : β)
  | pyMsg (m : Message)
  | pyOptMsg (m : Option Message)
  | pyStr (s : String)
  | pyOptStr (s : Option String)
  | pyStrList (l : List String)
  | pyNat (n : Nat)
  deriving DecidableEq

/-- Attribute access `getattr(ctx, name)` on a `Context`: the data attributes
set by `__init__` (plus `args` once cached) resolve normally; `args` while
missing is resolved lazily by `__getattr__` via `_get_args`; any other name
makes `__getattr__` raise `AttributeError`. -/
def Context.getattr {β : Type} (ctx : Context β) (name : String) :
    Except PyErr (PyVal β × Context β) :=
  if name = "bot" then .ok (.pyBot ctx.bot, ctx)
  else if name = "msg" then .ok (.pyMsg ctx.msg, ctx)
  else if name = "segments" then .ok (.pyStrList ctx.segments, ctx)
  else if name = "cmd_len" then .ok (.pyNat ctx.cmd_len, ctx)
  else if name = "invoker" then .ok (.pyStr ctx.invoker, ctx)
  else if name = "response" then .ok (.pyOptMsg ctx.response, ctx)
  else if name = "response_mode" then .ok (.pyOptStr ctx.response_mode, ctx)
  else if name = "input" then .ok (.pyStr ctx.input, ctx)
  else if name = "parsed_input" then .ok (.pyStr ctx.parsed_input, ctx)
  else if name = "args" then
    .ok (.pyStrList ctx.accessArgs.1, ctx.accessArgs.2)
  else .error (.attributeError name)

/-- The argument tuple the source forwards to the external primitive
`bot.respond(msg or self.msg, text, mode=mode, redact=redact,
response=..., **kwargs)`; `ε` is the opaque type of the extra kwargs. -/
structure RespondArgs (ε : Type) where
  target : Message
  text : Option String
  mode : Option String
  redact : Option Bool
  response : Option Message
  extra : ε
  deriving DecidableEq

/-- Body of `Context.respond`. The external primitive is the explicit
parameter `prim`. The `response` forwarded to it is the stored one exactly
when `reuse_response` holds and the requested `mode` equals the stored
`response_mode`, else `None`; the target is `msg or self.msg`; afterwards
`self.response` and `self.response_mode` are overwritten unconditionally and
the primitive's result is returned. -/
def Context.respond {β ε : Type} (ctx : Context β) (prim : RespondArgs ε → Message)
    (text : Option String) (mode : Option String) (redact : Option Bool)
    (msg : Option Message) (reuse_response : Bool) (extra : ε) :
    Message × Context β :=
  let fwd : Option Message :=
    if reuse_response ∧ mode = ctx.response_mode then ctx.response else none
  let result := prim ⟨msg.getD ctx.msg, text, mode, redact, fwd, extra⟩
  (result, { ctx with response := some result, response_mode := mode })

/-- The keyword arguments of a call to `respond` / `respond_multi`, with
presence recorded: `none` means the keyword was not supplied at the call
site, `some v` means it was supplied with value `v` (which may itself be
Python `None`). `extra` is the opaque pass-through kwargs. -/
structure Kwargs (ε : Type) where
  text : Option (Option String)
  mode : Option (Option String)
  redact : Option (Option Bool)
  msg : Option (Option Message)
  reuse_response : Option Bool
  extra : ε

/-- Calling `self.respond(**kwargs)`: each missing keyword takes the default
declared in the signature of `respond` (`None` everywhere, `False` for
`reuse_response`). -/
def Context.respondKw {β ε : Type} (ctx : Context β) (prim : RespondArgs ε → Message)
    (kw : Kwargs ε) : Message × Context β :=
  ctx.respond prim (kw.text.getD none) (kw.mode.getD none) (kw.redact.getD none)
    (kw.msg.getD none) (kw.reuse_response.getD false) kw.extra

/-- Body of `Context.respond_multi(*args, **kwargs)`: when `self.response` is
set (a Telethon message is always truthy), `kwargs.setdefault` injects
`mode="reply"`, `msg=self.response`, `reuse_response=False` for any of those
three keys the caller did not supply; then it delegates to `respond`. -/
def Context.respond_multi {β ε : Type} (ctx : Context β) (prim : RespondArgs ε → Message)
    (kw : Kwargs ε) : Message × Context β :=
  let kw' :=
    match ctx.response with
    | some r =>
      { kw with
        mode := some (kw.mode.getD (some "reply"))
        msg := some (kw.msg.getD (some r))
        reuse_response := some (kw.reuse_response.getD false) }
    | none => kw
  ctx.respondKw prim kw'

/-- Sample message used by concrete witnesses: the `/echo` example. -/
def echoMsg : Message :=
  { text := "/echo **hi**", raw_text := "/echo hi" }

/-- The context the dispatcher would build for `echoMsg` with command length 6. -/
def echoCtx : Context Unit :=
  { bot := ()
    msg := echoMsg
    segments := ["/echo", "hi"]
    cmd_len := 6
    invoker := "/echo"
    response := none
    response_mode := none
    input := "**hi**"
    parsed_input := "hi"
    args := none }

/-- A fixed external primitive for concrete witnesses. -/
def constPrim : RespondArgs Unit → Message :=
  fun _ => { text := "sent", raw_text := "sent" }

/-- A non-callable Python object (with no attributes set), as could be handed
to the `Command` constructor. -/
def nonCallable : PyFunc Unit :=
  { callable := false, behavior := (), attrs := fun _ => none }

/-- A function object with no tags applied, used by concrete witnesses. -/
def plainFunc : PyFunc Nat :=
  { callable := true, behavior := 7, attrs := fun _ => none }

/-- A previously sent response message, used by concrete witnesses. -/
def prevMsg : Message :=
  { text := "prev", raw_text := "prev" }

/-- A context that has already responded once, used by concrete witnesses. -/
def respondedCtx : Context Unit :=
  { echoCtx with response := some prevMsg, response_mode := some "md" }

/-- A call with no keyword arguments supplied, used by concrete witnesses. -/
def emptyKw : Kwargs Unit :=
  { text := none, mode := none, redact := none, msg := none,
    reuse_response := none, extra := () }

/-- C1: `Context.respond` forwards the stored response to the external
primitive exactly when `reuse_response` is true and the requested `mode`
equals the stored `response_mode`, and forwards `None` otherwise; after the
primitive returns, `response` is unconditionally overwritten with its result
and `response_mode` with the requested mode, that result is returned to the
caller, and no other field of the context is mutated. -/
theorem c1_respond_spec {β ε : Type} (ctx : Context β) (prim : RespondArgs ε → Message)
    (text mode : Option String) (redact : Option Bool) (msg : Option Message)
    (reuse_response : Bool) (extra : ε) :
    Context.respond ctx prim text mode redact msg reuse_response extra =
      (prim ⟨msg.getD ctx.msg, text, mode, redact,
          if reuse_response ∧ mode = ctx.response_mode then ctx.response else none,
          extra⟩,
        { ctx with
          response := some (prim ⟨msg.getD ctx.msg, text, mode, redact,
            if reuse_response ∧ mode = ctx.response_mode then ctx.response else none,
            extra⟩)
          response_mode := mode }) ∧
    (Context.respond ctx prim text mode redact msg reuse_response extra).2.bot = ctx.bot ∧
    (Context.respond ctx prim text mode redact msg reuse_response extra).2.msg = ctx.msg ∧
    (Context.respond ctx prim text mode redact msg reuse_response extra).2.segments =
      ctx.segments ∧
    (Context.respond ctx prim text mode redact msg reuse_response extra).2.cmd_len =
      ctx.cmd_len ∧
    (Context.respond ctx prim text mode redact msg reuse_response extra).2.invoker =
      ctx.invoker ∧
    (Context.respond ctx prim text mode redact msg reuse_response extra).2.input =
      ctx.input ∧
    (Context.respond ctx prim text mode redact msg reuse_response extra).2.parsed_input =
      ctx.parsed_input ∧
    (Context.respond ctx prim text mode redact msg reuse_response extra).2.args =
      ctx.args :=
  ⟨rfl, rfl, rfl, rfl, rfl, rfl, rfl, rfl, rfl⟩

/-- C2: `respond_multi` with a non-absent stored response injects the
defaults `mode = "reply"`, `msg = self.response`, `reuse_response = False`
for exactly the keywords the caller did not supply (caller-supplied values
win), then delegates to `respond`; with an absent response it delegates to
`respond` with the caller's keywords untouched. -/
theorem c2_respond_multi_defaults {β ε : Type} (ctx : Context β)
    (prim : RespondArgs ε → Message) (kw : Kwargs ε) :
    (∀ r, ctx.response = some r →
      Context.respond_multi ctx prim kw =
        Context.respond ctx prim (kw.text.getD none) (kw.mode.getD (some "reply"))
          (kw.redact.getD none) (kw.msg.getD (some r)) (kw.reuse_response.getD false)
          kw.extra) ∧
    (ctx.response = none →
      Context.respond_multi ctx prim kw =
        Context.respond ctx prim (kw.text.getD none) (kw.mode.getD none)
          (kw.redact.getD none) (kw.msg.getD none) (kw.reuse_response.getD false)
          kw.extra) := by
  constructor
  · intro r hr
    unfold Context.respond_multi Context.respondKw
    rw [hr]
    simp
  · intro hr
    unfold Context.respond_multi Context.respondKw
    rw [hr]

/-- Witness for C2: on a context whose response is `prevMsg`, a bare
`respond_multi` call resolves to `respond` with the injected defaults; on a
fresh context it resolves to a plain `respond` call. -/
theorem c2_witness :
    Context.respond_multi respondedCtx constPrim emptyKw =
      Context.respond respondedCtx constPrim none (some "reply") none (some prevMsg)
        false () ∧
    Context.respond_multi echoCtx constPrim emptyKw =
      Context.respond echoCtx constPrim none none none none false () :=
  ⟨(c2_respond_multi_defaults respondedCtx constPrim emptyKw).1 prevMsg rfl,
   (c2_respond_multi_defaults echoCtx constPrim emptyKw).2 rfl⟩

/-- C3: constructing a `Context` with empty `segments` fails with the raised
error (the spec's `InvalidArgumentError`, raised by indexing `segments[0]`),
so a handler is never given such a context; with non-empty segments the
construction succeeds and sets `invoker` to `segments[0]`. -/
theorem c3_empty_segments_fail {β : Type} (bot : β) (m : Message) (cmd_len : Nat) :
    Context.make? bot m [] cmd_len = .error .indexError ∧
    ∀ s0 rest, ∃ ctx : Context β,
      Context.make? bot m (s0 :: rest) cmd_len = .ok ctx ∧ ctx.invoker = s0 :=
  ⟨rfl, fun _ _ => ⟨_, rfl, rfl⟩⟩

/-- C4 counterexample: constructing a `Command` from a non-callable object
succeeds — `Command.__init__` performs no callable check and signals no
`InvalidCommandError`, contradicting the claim that non-callable `func`
makes construction fail. -/
theorem c4_counterexample :
    nonCallable.callable = false ∧
    Command.make? "test" () nonCallable =
      .ok { name := "test", desc := none, usage := none,
            usage_optional := .vBool false, usage_reply := .vBool false,
            aliases := .vStrList [], module := (), func := nonCallable } :=
  ⟨rfl, rfl⟩

/-- C4 (amended): `Command` construction is pure and never fails, for any
`func` whatsoever (callable or not); the name, module and function are
stored unchanged. -/
theorem c4_make_never_fails {μ β : Type} (name : String) (mod : μ) (f : PyFunc β) :
    Command.make? name mod f = .ok (Command.make name mod f) ∧
    (Command.make name mod f).name = name ∧
    (Command.make name mod f).module = mod ∧
    (Command.make name mod f).func = f :=
  ⟨rfl, rfl, rfl, rfl⟩

/-- C5: for a context built from `segments = s0 :: rest`, accessing `args`
yields `rest` (`segments[1:]`), stores it in the `args` attribute, and every
later access returns that same cached sequence with the context unchanged
(no recomputation). -/
theorem c5_args_memoized {β : Type} (bot : β) (m : Message) (s0 : String)
    (rest : List String) (cmd_len : Nat) (ctx : Context β)
    (h : Context.make? bot m (s0 :: rest) cmd_len = .ok ctx) :
    ctx.accessArgs.1 = rest ∧
    ctx.accessArgs.2 = { ctx with args := some rest } ∧
    ctx.accessArgs.2.accessArgs = (rest, ctx.accessArgs.2) := by
  simp only [Context.make?, Except.ok.injEq] at h
  subst h
  exact ⟨rfl, rfl, rfl⟩

/-- Witness for C5 on the `/echo hi` context: `args` is `["hi"]`, cached and
stable across accesses. -/
theorem c5_witness :
    echoCtx.accessArgs.1 = ["hi"] ∧
    echoCtx.accessArgs.2 = { echoCtx with args := some ["hi"] } ∧
    echoCtx.accessArgs.2.accessArgs = (["hi"], echoCtx.accessArgs.2) :=
  c5_args_memoized () echoMsg "/echo" ["hi"] 6 echoCtx rfl

/-- C6: every successfully constructed context has `input` equal to the
message's formatted text sliced from `cmd_len` and `parsed_input` equal to
its plain text sliced from `cmd_len` (both computed eagerly at
construction). -/
theorem c6_input_slicing {β : Type} (bot : β) (m : Message) (segments : List String)
    (cmd_len : Nat) (ctx : Context β)
    (h : Context.make? bot m segments cmd_len = .ok ctx) :
    ctx.input = pySlice m.text cmd_len ∧
    ctx.parsed_input = pySlice m.raw_text cmd_len := by
  cases segments with
  | nil => exact absurd h (by simp [Context.make?])
  | cons s0 rest =>
    simp only [Context.make?, Except.ok.injEq] at h
    subst h
    exact ⟨rfl, rfl⟩

/-- Witness for C6 on the spec's example: formatted text `"/echo **hi**"`,
plain text `"/echo hi"`, `cmd_len = 6` give `input = "**hi**"` and
`parsed_input = "hi"`. -/
theorem c6_witness :
    echoCtx.input = "**hi**" ∧ echoCtx.parsed_input = "hi" := by
  have h := c6_input_slicing () echoMsg ["/echo", "hi"] 6 echoCtx rfl
  exact ⟨h.1.trans (by decide), h.2.trans (by decide)⟩

/-- C7: accessing any attribute of a `Context` other than the fields set at
construction and the recognized lazy field `args` raises `AttributeError`
(never silently returns a default). -/
theorem c7_unknown_attribute {β : Type} (ctx : Context β) (name : String)
    (h : name ∉ ["bot", "msg", "segments", "cmd_len", "invoker", "response",
      "response_mode", "input", "parsed_input", "args"]) :
    ctx.getattr name = .error (.attributeError name) := by
  simp only [List.mem_cons, List.mem_singleton, not_or] at h
  obtain ⟨h1, h2, h3, h4, h5, h6, h7, h8, h9, h10⟩ := h
  simp [Context.getattr, h1, h2, h3, h4, h5, h6, h7, h8, h9, h10]

/-- Witness for C7: `ctx.nonexistent_field` raises `AttributeError`. -/
theorem c7_witness :
    echoCtx.getattr "nonexistent_field" =
      .error (.attributeError "nonexistent_field") :=
  c7_unknown_attribute echoCtx "nonexistent_field" (by decide)

/-- C8: each tag returns the same function object — call behavior and
callability unchanged — with its value recorded as a retrievable attribute;
tags stack in any order without disturbing each other, and applying the
same tag twice overwrites the prior value without error. -/
theorem c8_tags_preserve_behavior {β : Type} (f : PyFunc β) (d d2 u u2 : String)
    (o r o2 r2 : Bool) (as as2 : List String) :
    ((desc d f).behavior = f.behavior ∧ (desc d f).callable = f.callable ∧
      (desc d f).attrs "_cmd_description" = some (.vStr d)) ∧
    ((usage u o r f).behavior = f.behavior ∧ (usage u o r f).callable = f.callable ∧
      (usage u o r f).attrs "_cmd_usage" = some (.vStr u) ∧
      (usage u o r f).attrs "_cmd_usage_optional" = some (.vBool o) ∧
      (usage u o r f).attrs "_cmd_usage_reply" = some (.vBool r)) ∧
    ((«alias» as f).behavior = f.behavior ∧ («alias» as f).callable = f.callable ∧
      («alias» as f).attrs "_cmd_aliases" = some (.vStrList as)) ∧
    ((desc d2 (desc d f)).attrs "_cmd_description" = some (.vStr d2) ∧
      (usage u2 o2 r2 (usage u o r f)).attrs "_cmd_usage" = some (.vStr u2) ∧
      (usage u2 o2 r2 (usage u o r f)).attrs "_cmd_usage_optional" = some (.vBool o2) ∧
      (usage u2 o2 r2 (usage u o r f)).attrs "_cmd_usage_reply" = some (.vBool r2) ∧
      («alias» as2 («alias» as f)).attrs "_cmd_aliases" = some (.vStrList as2)) ∧
    ((usage u o r (desc d f)).attrs "_cmd_description" = some (.vStr d) ∧
      (desc d («alias» as f)).attrs "_cmd_aliases" = some (.vStrList as) ∧
      (usage u o r (desc d f)).behavior = f.behavior) := by
  simp [desc, usage, «alias», setattr]

/-- C9: `Command` construction copies each metadata field from the
function's tag attributes, substituting the documented default when the tag
is absent, and never raises; an untagged function yields `desc = None`,
`usage = None`, `usage_optional = False`, `usage_reply = False`,
`aliases = []`. -/
theorem c9_metadata_defaults {μ β : Type} (name : String) (mod : μ) (f : PyFunc β) :
    ((Command.make name mod f).desc = f.attrs "_cmd_description" ∧
      (Command.make name mod f).usage = f.attrs "_cmd_usage" ∧
      (Command.make name mod f).usage_optional =
        (f.attrs "_cmd_usage_optional").getD (.vBool false) ∧
      (Command.make name mod f).usage_reply =
        (f.attrs "_cmd_usage_reply").getD (.vBool false) ∧
      (Command.make name mod f).aliases =
        (f.attrs "_cmd_aliases").getD (.vStrList [])) ∧
    ((∀ a, f.attrs a = none) →
      (Command.make name mod f).desc = none ∧
      (Command.make name mod f).usage = none ∧
      (Command.make name mod f).usage_optional = .vBool false ∧
      (Command.make name mod f).usage_reply = .vBool false ∧
      (Command.make name mod f).aliases = .vStrList []) := by
  refine ⟨⟨rfl, rfl, rfl, rfl, rfl⟩, fun h => ?_⟩
  simp [Command.make, h]

/-- Witness for C9 on an untagged function: all metadata fields take their
documented defaults. -/
theorem c9_witness :
    (Command.make "echo" () plainFunc).desc = none ∧
    (Command.make "echo" () plainFunc).usage = none ∧
    (Command.make "echo" () plainFunc).usage_optional = .vBool false ∧
    (Command.make "echo" () plainFunc).usage_reply = .vBool false ∧
    (Command.make "echo" () plainFunc).aliases = .vStrList [] :=
  (c9_metadata_defaults "echo" () plainFunc).2 (fun _ => rfl)

/-- C10: on a freshly constructed context (stored `response` and
`response_mode` both absent), every `respond` call forwards `None` as the
`response` argument to the primitive — for every requested mode (including
`None`, where the mode comparison succeeds but the stored response being
forwarded is itself `None`) and for both values of `reuse_response`. -/
theorem c10_fresh_forwards_none {β ε : Type} (bot : β) (m : Message)
    (segments : List String) (cmd_len : Nat) (ctx : Context β)
    (prim : RespondArgs ε → Message) (text mode : Option String)
    (redact : Option Bool) (msg : Option Message) (reuse_response : Bool)
    (extra : ε) (h : Context.make? bot m segments cmd_len = .ok ctx) :
    Context.respond ctx prim text mode redact msg reuse_response extra =
      (prim ⟨msg.getD ctx.msg, text, mode, redact, none, extra⟩,
        { ctx with
          response := some (prim ⟨msg.getD ctx.msg, text, mode, redact, none, extra⟩)
          response_mode := mode }) := by
  have hresp : ctx.response = none := by
    cases segments with
    | nil => exact absurd h (by simp [Context.make?])
    | cons s0 rest =>
      simp only [Context.make?, Except.ok.injEq] at h
      subst h
      rfl
  simp [Context.respond, hresp]

/-- Witness for C10: on the fresh `/echo` context, a call with `mode = None`
and `reuse_response = True` still forwards `None` to the primitive. -/
theorem c10_witness :
    Context.respond echoCtx constPrim none none none none true () =
      (constPrim ⟨echoMsg, none, none, none, none, ()⟩,
        { echoCtx with
          response := some (constPrim ⟨echoMsg, none, none, none, none, ()⟩)
          response_mode := none }) :=
  c10_fresh_forwards_none () echoMsg ["/echo", "hi"] 6 echoCtx constPrim
    none none none none true () rfl


end Pyrobud
